import Mathlib

/-
Shallow embedding of the activityindex repository (ActivityIndex.ipynb).

The notebook defines three pure functions over pandas DataFrames with real
columns x, y, z:

  getNoiseValue(df, mode="author")   -- systematic noise variance
  getActivityIndex(df, noise, rel)   -- activity index of one window
  getSignalActivityIndex(df, noise, freq, rel) -- windowed aggregation

A DataFrame is modelled as a list of tri-axial samples.  pandas Series.var()
is the unbiased sample variance (denominator n - 1); when the series has
fewer than two entries it returns the float NaN rather than raising.  Float
results that are not real numbers (NaN, or the infinities produced by
dividing a nonzero float by zero, which in numpy only emits a warning) are
modelled by the none constructor of Option, or a dedicated constructor; a
raised Python exception is modelled by its own constructor.  All other
arithmetic is exact real arithmetic.
-/

noncomputable section

namespace ActivityIndex

/-- One tri-axial accelerometer sample: a row of the DataFrame with its
x, y and z columns. -/
structure Sample where
  x : ℝ
  y : ℝ
  z : ℝ

/-- A signal: the ordered rows of the DataFrame. -/
abbrev Signal := List Sample

/-- The x column of the DataFrame. -/
def xs (df : Signal) : List ℝ := df.map Sample.x

/-- The y column of the DataFrame. -/
def ys (df : Signal) : List ℝ := df.map Sample.y

/-- The z column of the DataFrame. -/
def zs (df : Signal) : List ℝ := df.map Sample.z

/-- Arithmetic mean of a list of reals (sum divided by length). -/
def mean (l : List ℝ) : ℝ := l.sum / l.length

/-- Unbiased sample variance with denominator n - 1: the value that pandas
Series.var() computes when the series has at least two entries.  (For fewer
than two entries pandas returns NaN; callers below guard on the length and
map that case to a non-real marker.) -/
def svar (l : List ℝ) : ℝ :=
  ((l.map fun v => (v - mean l) ^ 2).sum) / ((l.length : ℝ) - 1)

/-- Outcome of getNoiseValue.  value r: the function returns the float r.
nan: the function returns the float NaN (the variances are NaN because the
DataFrame has fewer than two rows).  nameError: the function raises
UnboundLocalError at the return statement because neither conditional
assigned sysnoise. -/
inductive NoiseResult where
  | value : ℝ → NoiseResult
  | nan : NoiseResult
  | nameError : NoiseResult

/-- Embedding of getNoiseValue(df, mode).  The source guards the assignment
of sysnoise by two separate if statements, one for mode == "paper" and one
for mode == "bai" (a string never satisfies both, so sequential ifs and
if/elif agree); any other mode leaves sysnoise unassigned and the final
return statement raises UnboundLocalError. -/
def getNoiseValue (df : Signal) (mode : String) : NoiseResult :=
  if mode = "paper" then
    if 2 ≤ df.length then
      NoiseResult.value (svar (xs df) + svar (ys df) + svar (zs df))
    else NoiseResult.nan
  else if mode = "bai" then
    if 2 ≤ df.length then
      NoiseResult.value ((svar (xs df) + svar (ys df) + svar (zs df)) / 3)
    else NoiseResult.nan
  else NoiseResult.nameError

/-- Calling getNoiseValue without a mode argument: the Python default
parameter value is the string "author". -/
def getNoiseValueDefault (df : Signal) : NoiseResult :=
  getNoiseValue df "author"

/-- Embedding of getActivityIndex(df, noise, rel).  some v means the Python
function returns the real float v; none means it returns a float that is
not a real number: NaN when the window has fewer than two rows (variance of
the window is NaN), or NaN / infinity when rel is true and noise is zero
(numpy float division by zero warns and yields inf or NaN, and max and
math.sqrt propagate it).  The function never raises. -/
def getActivityIndex (df : Signal) (noise : ℝ) (rel : Bool) : Option ℝ :=
  if 2 ≤ df.length then
    if rel = false then
      some (Real.sqrt (max
        (((svar (xs df) - noise) + (svar (ys df) - noise) + (svar (zs df) - noise)) / 3) 0))
    else if noise = 0 then none
    else
      some (Real.sqrt (max
        (((svar (xs df) - noise) / noise + (svar (ys df) - noise) / noise
          + (svar (zs df) - noise) / noise) / 3) 0))
  else none

/-- Embedding of getSignalActivityIndex(df, noise, freq, rel): nchunks is
integer division of the length by freq, the loop scores the slice
df.iloc[i*freq : i*freq+freq] for each i below nchunks and accumulates the
sum starting from 0, and the pair of the sum and len(df) // freq is
returned.  A non-real float from any window (none) contaminates the running
sum, as NaN or inf does in Python. -/
def getSignalActivityIndex (df : Signal) (noise : ℝ) (freq : ℕ) (rel : Bool) :
    Option ℝ × ℕ :=
  let nchunks := df.length / freq
  let ai_signal := (List.range nchunks).foldl
    (fun acc i =>
      match acc, getActivityIndex ((df.drop (i * freq)).take freq) noise rel with
      | some s, some v => some (s + v)
      | _, _ => none)
    (some 0)
  (ai_signal, df.length / freq)

/-- Transcription of the per-axis deviation of step 2 in section 4.2 of the
specification: varAxis - noise in absolute mode, (varAxis - noise) / noise
in relative mode.  This definition follows the wording of the
specification, to be compared with the source embedding. -/
def specDeviation (rel : Bool) (noise v : ℝ) : ℝ :=
  if rel then (v - noise) / noise else v - noise

/-- Transcription of steps 1 to 5 of the Window Activity Scorer in section
4.2 of the specification: per-axis variances, per-axis deviations, their
average, the clamp at zero, and the square root.  This definition follows
the wording of the specification, to be compared with the source
embedding. -/
def scoreWindowSpec (df : Signal) (noise : ℝ) (rel : Bool) : ℝ :=
  Real.sqrt (max
    ((specDeviation rel noise (svar (xs df)) + specDeviation rel noise (svar (ys df))
      + specDeviation rel noise (svar (zs df))) / 3) 0)

@[simp] theorem length_xs (df : Signal) : (xs df).length = df.length :=
  List.length_map df Sample.x

@[simp] theorem length_ys (df : Signal) : (ys df).length = df.length :=
  List.length_map df Sample.y

@[simp] theorem length_zs (df : Signal) : (zs df).length = df.length :=
  List.length_map df Sample.z

/-- The unbiased sample variance of a list with at least two entries is
non-negative: a sum of squares divided by the positive number n - 1. -/
theorem svar_nonneg (l : List ℝ) (h : 2 ≤ l.length) : 0 ≤ svar l := by
  unfold svar
  apply div_nonneg
  · apply List.sum_nonneg
    intro a ha
    obtain ⟨v, _, rfl⟩ := List.mem_map.1 ha
    exact sq_nonneg _
  · have h2 : (2 : ℝ) ≤ (l.length : ℝ) := by exact_mod_cast h
    linarith

/-- A concrete two-row DataFrame with per-axis columns [0, 2]; each per-axis
unbiased sample variance is 2. -/
def pairSignal : Signal := ⟨0, 0, 0⟩ :: ⟨2, 2, 2⟩ :: []

/-- Claim C1: the specification demands that relative scoring with a zero
noise floor surface a division-by-zero failure and never silently return
infinity or NaN.  The source does neither raise nor flag anything: the
variances are numpy floats, and dividing them by a zero noise only emits a
RuntimeWarning and yields inf (or NaN when the variance is also zero),
which max and math.sqrt propagate, so the call silently returns a non-real
float.  At this concrete two-sample window with per-axis variances 8,
noise 0 and relative mode, the embedding returns its silent non-real
marker: no error value and no real result. -/
theorem activity_rel_zero_noise_silent :
    getActivityIndex (⟨0, 0, 0⟩ :: ⟨4, 4, 4⟩ :: []) 0 true = none := by
  simp [getActivityIndex]

/-- Claim C2: for every DataFrame and every mode string other than "paper"
and "bai", getNoiseValue raises (the sysnoise variable is never assigned,
so the return statement raises UnboundLocalError); it never returns a
noise value, defined or otherwise. -/
theorem noise_unknown_mode_raises (df : Signal) (mode : String)
    (hp : mode ≠ "paper") (hb : mode ≠ "bai") :
    getNoiseValue df mode = NoiseResult.nameError := by
  simp [getNoiseValue, hp, hb]

/-- Witness for claim C2 at the concrete mode "median" and a one-row
DataFrame. -/
theorem noise_unknown_mode_raises_witness :
    ("median" : String) ≠ "paper" ∧ ("median" : String) ≠ "bai" ∧
      getNoiseValue (⟨1, 2, 3⟩ :: []) "median" = NoiseResult.nameError :=
  ⟨by decide, by decide,
    noise_unknown_mode_raises (⟨1, 2, 3⟩ :: []) "median" (by decide) (by decide)⟩

/-- Claim C9: calling getNoiseValue without a mode argument uses the Python
default value "author", which matches neither branch, so the call raises
(UnboundLocalError) instead of returning a noise scalar, for every input
DataFrame. -/
theorem default_mode_always_raises (df : Signal) :
    getNoiseValueDefault df = NoiseResult.nameError := by
  simp [getNoiseValueDefault, getNoiseValue]

/-- Counterexample for claim C3: the claim admits reference signals of any
length at least 1, but on a one-row DataFrame pandas Series.var() (unbiased,
denominator n - 1) is NaN, so getNoiseValue returns the float NaN rather
than any non-negative real number. -/
theorem noise_single_sample_nan :
    getNoiseValue (⟨0, 0, 0⟩ :: []) "paper" = NoiseResult.nan := by
  simp [getNoiseValue]

/-- Claim C3 (amended: reference signal of length at least 2): getNoiseValue
returns a well-defined non-negative real, equal to the sum of the per-axis
unbiased sample variances over the whole signal for mode "paper", and that
sum divided by 3 for mode "bai". -/
theorem noise_value_formula (df : Signal) (h : 2 ≤ df.length) :
    getNoiseValue df "paper"
        = NoiseResult.value (svar (xs df) + svar (ys df) + svar (zs df)) ∧
      0 ≤ svar (xs df) + svar (ys df) + svar (zs df) ∧
      getNoiseValue df "bai"
        = NoiseResult.value ((svar (xs df) + svar (ys df) + svar (zs df)) / 3) ∧
      0 ≤ (svar (xs df) + svar (ys df) + svar (zs df)) / 3 := by
  have hx : 0 ≤ svar (xs df) := svar_nonneg _ (by simpa using h)
  have hy : 0 ≤ svar (ys df) := svar_nonneg _ (by simpa using h)
  have hz : 0 ≤ svar (zs df) := svar_nonneg _ (by simpa using h)
  refine ⟨by simp [getNoiseValue, h], by linarith,
    by simp [getNoiseValue, h], div_nonneg (by linarith) (by norm_num)⟩

/-- Witness for the amended claim C3 at the concrete two-row DataFrame. -/
theorem noise_value_formula_witness :
    2 ≤ pairSignal.length ∧
      (getNoiseValue pairSignal "paper"
          = NoiseResult.value (svar (xs pairSignal) + svar (ys pairSignal) + svar (zs pairSignal)) ∧
        0 ≤ svar (xs pairSignal) + svar (ys pairSignal) + svar (zs pairSignal) ∧
        getNoiseValue pairSignal "bai"
          = NoiseResult.value ((svar (xs pairSignal) + svar (ys pairSignal) + svar (zs pairSignal)) / 3) ∧
        0 ≤ (svar (xs pairSignal) + svar (ys pairSignal) + svar (zs pairSignal)) / 3) :=
  ⟨by decide, noise_value_formula pairSignal (by decide)⟩

/-- Claim C5: whenever mode "bai" yields a noise value b on a reference
signal, mode "paper" yields exactly 3 * b on the same signal. -/
theorem noise_paper_eq_three_bai (df : Signal) (b : ℝ)
    (h : getNoiseValue df "bai" = NoiseResult.value b) :
    getNoiseValue df "paper" = NoiseResult.value (3 * b) := by
  unfold getNoiseValue at h ⊢
  rw [if_neg (by decide : ¬("bai" : String) = "paper"), if_pos rfl] at h
  rw [if_pos rfl]
  by_cases h2 : 2 ≤ df.length
  · rw [if_pos h2] at h
    rw [if_pos h2]
    injection h with h
    subst h
    congr 1
    ring
  · rw [if_neg h2] at h
    exact NoiseResult.noConfusion h

/-- Evaluation of getNoiseValue in mode "bai" on the concrete two-row
DataFrame: each per-axis variance is 2, so the result is (2+2+2)/3 = 2. -/
theorem noise_bai_pair_eval :
    getNoiseValue pairSignal "bai" = NoiseResult.value 2 := by
  unfold getNoiseValue
  rw [if_neg (by decide : ¬("bai" : String) = "paper"), if_pos rfl,
    if_pos (by decide : 2 ≤ pairSignal.length)]
  norm_num [pairSignal, svar, mean, xs, ys, zs]

/-- Witness for claim C5 at the concrete two-row DataFrame: bai gives 2 and
paper gives 3 * 2. -/
theorem noise_paper_eq_three_bai_witness :
    getNoiseValue pairSignal "bai" = NoiseResult.value 2 ∧
      getNoiseValue pairSignal "paper" = NoiseResult.value (3 * 2) :=
  ⟨noise_bai_pair_eval, noise_paper_eq_three_bai pairSignal 2 noise_bai_pair_eval⟩

/-- A concrete two-row DataFrame whose rows are all zero; each per-axis
unbiased sample variance is 0. -/
def zeroPair : Signal := ⟨0, 0, 0⟩ :: ⟨0, 0, 0⟩ :: []

/-- Claim C4: on a full window (exactly freq samples, freq at least 2 so the
per-axis variances are defined reals), the source scorer agrees with the
five-step specification formula: absolute mode for every noise scalar, and
relative mode whenever the noise scalar is nonzero. -/
theorem activity_matches_spec (df : Signal) (noise : ℝ) (freq : ℕ)
    (hlen : df.length = freq) (hfreq : 2 ≤ freq) :
    getActivityIndex df noise false = some (scoreWindowSpec df noise false) ∧
      (noise ≠ 0 → getActivityIndex df noise true = some (scoreWindowSpec df noise true)) := by
  have h2 : 2 ≤ df.length := hlen ▸ hfreq
  constructor
  · simp [getActivityIndex, scoreWindowSpec, specDeviation, h2]
  · intro hn
    simp [getActivityIndex, scoreWindowSpec, specDeviation, h2, hn]

/-- Witness for claim C4 at the concrete two-row window with freq 2 and
noise 1. -/
theorem activity_matches_spec_witness :
    pairSignal.length = 2 ∧
      getActivityIndex pairSignal 1 false = some (scoreWindowSpec pairSignal 1 false) ∧
      getActivityIndex pairSignal 1 true = some (scoreWindowSpec pairSignal 1 true) :=
  ⟨by decide, (activity_matches_spec pairSignal 1 2 (by decide) (by decide)).1,
    (activity_matches_spec pairSignal 1 2 (by decide) (by decide)).2 (by norm_num)⟩

/-- Claim C7: a signal shorter than one window yields zero chunks, so the
loop body never runs and the pair (0, 0) is returned as an ordinary value,
with no error, for every noise scalar and relative flag. -/
theorem signal_shorter_than_window (df : Signal) (noise : ℝ) (freq : ℕ) (rel : Bool)
    (h : df.length < freq) :
    getSignalActivityIndex df noise freq rel = (some 0, 0) := by
  simp [getSignalActivityIndex, Nat.div_eq_of_lt h]

/-- Witness for claim C7: a two-row signal with freq 30. -/
theorem signal_shorter_than_window_witness :
    zeroPair.length < 30 ∧ getSignalActivityIndex zeroPair 0 30 false = (some 0, 0) :=
  ⟨by decide, signal_shorter_than_window zeroPair 0 30 false (by decide)⟩

/-- Claim C8: whenever getActivityIndex returns a real value, that value is
non-negative, being the square root of a quantity clamped at zero. -/
theorem activity_index_nonneg (df : Signal) (noise : ℝ) (rel : Bool) (v : ℝ)
    (h : getActivityIndex df noise rel = some v) : 0 ≤ v := by
  unfold getActivityIndex at h
  by_cases h2 : 2 ≤ df.length
  · rw [if_pos h2] at h
    by_cases hr : rel = false
    · rw [if_pos hr] at h
      injection h with h
      exact h ▸ Real.sqrt_nonneg _
    · rw [if_neg hr] at h
      by_cases hn : noise = 0
      · rw [if_pos hn] at h
        exact Option.noConfusion h
      · rw [if_neg hn] at h
        injection h with h
        exact h ▸ Real.sqrt_nonneg _
  · rw [if_neg h2] at h
    exact Option.noConfusion h

/-- Evaluation of the scorer on the all-zero two-row window with noise 0 in
absolute mode: every per-axis variance is 0, the clamped average is 0, and
the result is sqrt 0 = 0. -/
theorem activity_zeroPair_noise0_eval :
    getActivityIndex zeroPair 0 false = some 0 := by
  unfold getActivityIndex
  rw [if_pos (by decide : 2 ≤ zeroPair.length), if_pos rfl]
  norm_num [zeroPair, svar, mean, xs, ys, zs]

/-- Witness for claim C8 at the all-zero two-row window. -/
theorem activity_index_nonneg_witness :
    getActivityIndex zeroPair 0 false = some 0 ∧ (0 : ℝ) ≤ 0 :=
  ⟨activity_zeroPair_noise0_eval,
    activity_index_nonneg zeroPair 0 false 0 activity_zeroPair_noise0_eval⟩

/-- Claim C10: for a strictly positive noise scalar, whenever the absolute
score of a window is the real v, the relative score of the same window is
v divided by the square root of the noise scalar. -/
theorem relative_eq_absolute_div_sqrt (df : Signal) (noise v : ℝ)
    (h : 0 < noise) (habs : getActivityIndex df noise false = some v) :
    getActivityIndex df noise true = some (v / Real.sqrt noise) := by
  have hne : noise ≠ 0 := ne_of_gt h
  unfold getActivityIndex at habs ⊢
  by_cases h2 : 2 ≤ df.length
  · rw [if_pos h2] at habs
    rw [if_pos rfl] at habs
    rw [if_pos h2, if_neg (by decide : ¬(true = false)), if_neg hne]
    injection habs with habs
    subst habs
    congr 1
    have key : ((svar (xs df) - noise) / noise + (svar (ys df) - noise) / noise
          + (svar (zs df) - noise) / noise) / 3
        = (((svar (xs df) - noise) + (svar (ys df) - noise) + (svar (zs df) - noise)) / 3)
            / noise := by
      ring
    rw [key]
    have hmax : max ((((svar (xs df) - noise) + (svar (ys df) - noise)
          + (svar (zs df) - noise)) / 3) / noise) 0
        = max (((svar (xs df) - noise) + (svar (ys df) - noise)
          + (svar (zs df) - noise)) / 3) 0 / noise := by
      rw [← max_div_div_right h.le, zero_div]
    rw [hmax, Real.sqrt_div (le_max_right _ 0)]
  · rw [if_neg h2] at habs
    exact Option.noConfusion habs

/-- Evaluation of the scorer on the all-zero two-row window with noise 1 in
absolute mode: each deviation is -1, the average -1 is clamped to 0, and
the result is sqrt 0 = 0. -/
theorem activity_zeroPair_noise1_eval :
    getActivityIndex zeroPair 1 false = some 0 := by
  unfold getActivityIndex
  rw [if_pos (by decide : 2 ≤ zeroPair.length), if_pos rfl]
  norm_num [zeroPair, svar, mean, xs, ys, zs]

/-- Witness for claim C10 at the all-zero two-row window with noise 1. -/
theorem relative_eq_absolute_div_sqrt_witness :
    (0 : ℝ) < 1 ∧ getActivityIndex zeroPair 1 false = some 0 ∧
      getActivityIndex zeroPair 1 true = some (0 / Real.sqrt 1) :=
  ⟨by norm_num, activity_zeroPair_noise1_eval,
    relative_eq_absolute_div_sqrt zeroPair 1 0 (by norm_num) activity_zeroPair_noise1_eval⟩

/-- When every window below n scores the real a i, the accumulation loop of
getSignalActivityIndex over the first n windows computes the sum of the
a i. -/
theorem foldl_window_sum (df : Signal) (noise : ℝ) (freq : ℕ) (rel : Bool)
    (a : ℕ → ℝ) (n : ℕ)
    (h : ∀ i, i < n →
      getActivityIndex ((df.drop (i * freq)).take freq) noise rel = some (a i)) :
    (List.range n).foldl
      (fun acc i =>
        match acc, getActivityIndex ((df.drop (i * freq)).take freq) noise rel with
        | some s, some v => some (s + v)
        | _, _ => none)
      (some 0)
      = some (∑ i in Finset.range n, a i) := by
  induction n with
  | zero => simp
  | succ n ih =>
      rw [List.range_succ, List.foldl_append,
        ih (fun i hi => h i (Nat.lt_succ_of_lt hi))]
      simp [h n (Nat.lt_succ_self n), Finset.sum_range_succ]

/-- Claim C6: for a positive freq, the aggregator reports floor(length/freq)
windows, and when each of the consecutive slices of freq samples starting
at i*freq scores the real a i, the reported total is the sum of those
scores; samples beyond the last full window are never touched by any
slice. -/
theorem signal_windowing (df : Signal) (noise : ℝ) (freq : ℕ) (rel : Bool)
    (a : ℕ → ℝ) (hfreq : 0 < freq)
    (h : ∀ i, i < df.length / freq →
      getActivityIndex ((df.drop (i * freq)).take freq) noise rel = some (a i)) :
    getSignalActivityIndex df noise freq rel
      = (some (∑ i in Finset.range (df.length / freq), a i), df.length / freq) := by
  simp only [getSignalActivityIndex]
  rw [foldl_window_sum df noise freq rel a (df.length / freq) h]

/-- A concrete five-row all-zero DataFrame: at freq 2 it holds two full
windows and one trailing sample. -/
def fiveZeros : Signal := ⟨0, 0, 0⟩ :: ⟨0, 0, 0⟩ :: ⟨0, 0, 0⟩ :: ⟨0, 0, 0⟩ :: ⟨0, 0, 0⟩ :: []

/-- Witness for claim C6: the five-row all-zero signal at freq 2 with noise
0 in absolute mode yields two windows, each scoring 0, so the aggregate is
(0, 2) and the trailing fifth sample is ignored. -/
theorem signal_windowing_witness :
    0 < 2 ∧ getSignalActivityIndex fiveZeros 0 2 false = (some 0, 2) := by
  refine ⟨by decide, ?_⟩
  have h : ∀ i, i < fiveZeros.length / 2 →
      getActivityIndex ((fiveZeros.drop (i * 2)).take 2) 0 false = some ((fun _ => (0 : ℝ)) i) := by
    intro i hi
    have hlen : fiveZeros.length / 2 = 2 := by decide
    rw [hlen] at hi
    interval_cases i
    · exact activity_zeroPair_noise0_eval
    · exact activity_zeroPair_noise0_eval
  have := signal_windowing fiveZeros 0 2 false (fun _ => 0) (by decide) h
  simpa using this

end ActivityIndex
